import Mathlib

/-!
Shallow embedding of the WPS execution engine of `owslib/wps.py`
(class `WPSExecution` and the data-model classes it uses), together
with theorems about the status state machine, the response parser,
the request builder and output retrieval.

XML documents are modelled as a tree of elements carrying a fully
namespace-qualified tag (the ElementTree convention: the tag string is
the namespace URI wrapped in braces followed by the local name), an
ordered attribute list, an optional text payload and an ordered child
list.  Python methods that mutate `self` become functions from the old
state to the new state; methods that can raise return `Except String`.
-/

/-- An XML element in the ElementTree style used by `wps.py`: qualified
tag, attributes, optional text, ordered children. -/
inductive Elem : Type where
  | mk (tag : String) (attrs : List (String × String)) (text : Option String)
       (children : List Elem)

def Elem.tag : Elem → String
  | .mk t _ _ _ => t

def Elem.attrs : Elem → List (String × String)
  | .mk _ a _ _ => a

def Elem.text : Elem → Option String
  | .mk _ _ x _ => x

def Elem.children : Elem → List Elem
  | .mk _ _ _ c => c

/-- `element.get(name)` of ElementTree: attribute lookup, `None` when absent. -/
def Elem.get (e : Elem) (name : String) : Option String :=
  (e.attrs.find? (fun p => p.1 == name)).map (fun p => p.2)

/-- `element.find(tag)` of ElementTree for a single-component path:
first direct child whose tag matches. -/
def Elem.find (e : Elem) (t : String) : Option Elem :=
  e.children.find? (fun c => c.tag == t)

/-- `element.findall(tag)` of ElementTree for a single-component path:
all direct children whose tag matches, in document order. -/
def Elem.findall (e : Elem) (t : String) : List Elem :=
  e.children.filter (fun c => c.tag == t)

/-- Concatenation of the images of a list under a list-valued map
(used to model two-component ElementTree paths). -/
def listJoinMap (f : α → List β) : List α → List β
  | [] => []
  | a :: l => f a ++ listJoinMap f l

/-- `element.findall(t1/t2)` of ElementTree: all grandchildren reached
through a child tagged `t1` and themselves tagged `t2`, in document order. -/
def Elem.findallPath2 (e : Elem) (t1 t2 : String) : List Elem :=
  listJoinMap (fun c => c.children.filter (fun g => g.tag == t2)) (e.findall t1)

/-- `element.find(t1/*)` of ElementTree (the lookup `Status/*` in
`_parseExecuteResponse`): the first grandchild, in document order, under
any child tagged `t1`. -/
def Elem.findPath2Any (e : Elem) (t1 : String) : Option Elem :=
  (e.findall t1).findSome? (fun c => c.children.head?)

/-- Effectful map over a list in the `Except` monad, mirroring a Python
`for` loop whose body may raise: stops at the first failure. -/
def exceptMapList (f : α → Except String β) : List α → Except String (List β)
  | [] => Except.ok []
  | a :: l => do
      let b ← f a
      let bs ← exceptMapList f l
      Except.ok (b :: bs)

/- Namespace constants of `wps.py` (those of `owslib.ows` are external;
their values are fixed by the document comments in `wps.py` itself,
e.g. `xmlns:ows="http://www.opengis.net/ows/1.1"`). -/

def WPS_NAMESPACE : String := "http://www.opengis.net/wps/1.0.0"

def WPS_SCHEMA_LOCATION : String :=
  "http://schemas.opengis.net/wps/1.0.0/wpsExecute_request.xsd"

def WPS_DEFAULT_VERSION : String := "1.0.0"

def DEFAULT_OWS_NAMESPACE : String := "http://www.opengis.net/ows/1.1"

def XLINK_NAMESPACE : String := "http://www.w3.org/1999/xlink"

def XSI_NAMESPACE : String := "http://www.w3.org/2001/XMLSchema-instance"

/-- `util.nspath(name, ns)` for a single path component: the qualified
tag string, namespace URI in braces followed by the local name. -/
def nspath (name : String) (ns : String) : String :=
  "\x7b" ++ ns ++ "\x7d" ++ name

/-- Splitting a character list at every occurrence of a separator
character (structural, so that closed instances evaluate). -/
def splitCharList (sep : Char) : List Char → List (List Char)
  | [] => [[]]
  | c :: cs =>
    match splitCharList sep cs with
    | [] => [[c]]
    | h :: t => if c = sep then [] :: h :: t else (c :: h) :: t

/-- Python `s.split(sep)` for the one-character separators used in
`wps.py` (brace, question mark, equals sign, slash, colon): the list of
parts between occurrences of the separator, in order. -/
def pySplit (s : String) (sep : Char) : List String :=
  (splitCharList sep s.data).map (fun l => String.mk l)

/-- `s.split(sep)[1]` as in Python: the part between the first and the
second occurrence of the separator, `none` (an `IndexError`) when the
separator does not occur. -/
def pySplitIdx1 (s : String) (sep : Char) : Option String :=
  (pySplit s sep)[1]?

/-- Rendering of a Python value that may be `None` into a `%s` format
hole, as in the exception messages of `wps.py`. -/
def pyShowOpt (s : Option String) : String :=
  match s with
  | none => "None"
  | some t => t

/-- Python truthiness of an optional string, as used by
`bool(elem.get("statusSupported"))`: `None` and the empty string are
falsy, every other string is truthy. -/
def pybool (s : Option String) : Bool :=
  match s with
  | none => false
  | some t => t ≠ ""

/-- Python `int(text)`: an integer when the text parses, an error
(`ValueError`) otherwise. -/
def pyint (s : String) : Except String Int :=
  match s.toInt? with
  | some n => Except.ok n
  | none => Except.error ("ValueError: invalid literal for int: " ++ s)

/-- Modelled from the spec: `wps_utils.parseText` is not under `src/`;
per the data-model description it extracts the text of an element that
may be absent (`None` when the element is missing). -/
def parseText (e : Option Elem) : Option String :=
  e.bind Elem.text

/-- A typed literal value as produced by the Typed Value Converter. -/
inductive TypedValue : Type where
  | vstr (s : Option String)
  | vint (n : Option Int)
  | vbool (b : Bool)
  | raw (s : Option String)

/-- Modelled from the spec: `wps_utils.getTypedValue` (the Typed Value
Converter of spec section 4.1) is not under `src/`; it coerces a textual
value by its primitive type tag (string/integer/long/float/double/boolean)
and returns the raw text unchanged for any unknown tag. -/
def getTypedValue (dataType : String) (text : Option String) : TypedValue :=
  if dataType = "string" then TypedValue.vstr text
  else if dataType = "integer" ∨ dataType = "long" then
    TypedValue.vint (text.bind String.toInt?)
  else if dataType = "boolean" then TypedValue.vbool (text == some "true")
  else TypedValue.raw text

/-- The `ComplexData` class: a `(mimeType, encoding, schema)` triple. -/
structure ComplexData where
  mimeType : Option String
  encoding : Option String
  schema : Option String

/-- The dynamically typed `defaultValue` field of `InputOutput`: either a
typed literal (set by `_parseLiteralData`) or a format triple (set by
`_parseComplexData`). -/
inductive DefaultVal : Type where
  | typed (v : TypedValue)
  | complex (c : ComplexData)

/-- The mutable value fields of `InputOutput` that `_parseLiteralData`
and `_parseComplexData` update. -/
structure LCFields where
  allowedValues : List TypedValue
  supportedValues : List ComplexData
  defaultValue : Option DefaultVal
  dataType : Option String

/-- `element.find(t1/t2)` of ElementTree: the first grandchild, in
document order, reached through a child tagged `t1` and itself tagged
`t2` (the lookup `Default/Format`). -/
def Elem.findPath2First (e : Elem) (t1 t2 : String) : Option Elem :=
  (e.findallPath2 t1 t2).head?

/-- `InputOutput._parseLiteralData(element, literalElementName)`: when the
literal element is present, reads the data type tag off the
`ows:DataType` reference attribute (raising when the element or the
attribute is missing, or the reference holds no colon), then collects
typed allowed values and the optional default value. -/
def parseLiteralData (st : LCFields) (element : Elem) (literalElementName : String) :
    Except String LCFields :=
  match element.find literalElementName with
  | none => Except.ok st
  | some literalDataElement =>
    match literalDataElement.find (nspath "DataType" DEFAULT_OWS_NAMESPACE) with
    | none => Except.error "AttributeError: NoneType object has no attribute get"
    | some dataTypeElement =>
      match dataTypeElement.get (nspath "reference" DEFAULT_OWS_NAMESPACE) with
      | none => Except.error "AttributeError: NoneType object has no attribute split"
      | some ref =>
        match pySplitIdx1 ref ':' with
        | none => Except.error "IndexError: list index out of range"
        | some dt =>
          let st := { st with dataType := some dt }
          let values :=
            literalDataElement.findallPath2 (nspath "AllowedValues" DEFAULT_OWS_NAMESPACE)
              (nspath "Value" DEFAULT_OWS_NAMESPACE)
          let st := { st with allowedValues :=
            st.allowedValues ++ values.map (fun v => getTypedValue dt v.text) }
          match literalDataElement.find "DefaultValue" with
          | none => Except.ok st
          | some defaultValue =>
              let dv := DefaultVal.typed (getTypedValue dt defaultValue.text)
              Except.ok { st with defaultValue := some dv }

/-- `InputOutput._parseComplexData(element, complexDataElementName)`:
when the complex element is present, tags the data type as
`"ComplexData"` and collects the supported and default format triples. -/
def parseComplexData (st : LCFields) (element : Elem) (complexDataElementName : String) :
    LCFields :=
  match element.find complexDataElementName with
  | none => st
  | some complexDataElement =>
    let st := { st with dataType := some "ComplexData" }
    let formats := complexDataElement.findallPath2 "Supported" "Format"
    let st := { st with supportedValues :=
      st.supportedValues ++ formats.map (fun formatElement => ComplexData.mk
        (parseText (formatElement.find "MimeType"))
        (parseText (formatElement.find "Encoding"))
        (parseText (formatElement.find "Schema"))) }
    match complexDataElement.findPath2First "Default" "Format" with
    | none => st
    | some defaultFormatElement =>
        { st with defaultValue := some (DefaultVal.complex (ComplexData.mk
            (parseText (defaultFormatElement.find "MimeType"))
            (parseText (defaultFormatElement.find "Encoding"))
            (parseText (defaultFormatElement.find "Schema")))) }

/-- The `Input` class: a declared or echoed process input. -/
structure InputM where
  identifier : Option String
  title : Option String
  abstract : Option String
  allowedValues : List TypedValue
  supportedValues : List ComplexData
  defaultValue : Option DefaultVal
  dataType : Option String
  minOccurs : Int
  maxOccurs : Int

/-- `Input.__init__(inputElement)`: base metadata, occurrence bounds
(`-1` sentinel when the attribute is absent), then literal and complex
data parsing. -/
def InputM.ofElem (inputElement : Elem) : Except String InputM := do
  let identifier := parseText (inputElement.find (nspath "Identifier" DEFAULT_OWS_NAMESPACE))
  let title := parseText (inputElement.find (nspath "Title" DEFAULT_OWS_NAMESPACE))
  let abstract := parseText (inputElement.find (nspath "Abstract" DEFAULT_OWS_NAMESPACE))
  let minOccurs ← match inputElement.get "minOccurs" with
    | some s => pyint s
    | none => Except.ok (-1)
  let maxOccurs ← match inputElement.get "maxOccurs" with
    | some s => pyint s
    | none => Except.ok (-1)
  let lc ← parseLiteralData (LCFields.mk [] [] none none) inputElement "LiteralData"
  let lc := parseComplexData lc inputElement "ComplexData"
  Except.ok (InputM.mk identifier title abstract lc.allowedValues lc.supportedValues
    lc.defaultValue lc.dataType minOccurs maxOccurs)

/-- The `Output` class: an execution result entry, carrying a
by-reference URL, inline data, or neither. -/
structure OutputM where
  identifier : Option String
  title : Option String
  abstract : Option String
  allowedValues : List TypedValue
  supportedValues : List ComplexData
  defaultValue : Option DefaultVal
  dataType : Option String
  reference : Option String
  mimeType : Option String
  data : Option String

/-- `Output.__init__(outputElement)`: base metadata, then the
`wps:Reference` element (href and mimeType), literal data, complex
output formats, and finally inline `wps:Data/wps:ComplexData` content. -/
def OutputM.ofElem (outputElement : Elem) : Except String OutputM := do
  let identifier := parseText (outputElement.find (nspath "Identifier" DEFAULT_OWS_NAMESPACE))
  let title := parseText (outputElement.find (nspath "Title" DEFAULT_OWS_NAMESPACE))
  let abstract := parseText (outputElement.find (nspath "Abstract" DEFAULT_OWS_NAMESPACE))
  let (reference, mimeType) :=
    match outputElement.find (nspath "Reference" WPS_NAMESPACE) with
    | some referenceElement => (referenceElement.get "href", referenceElement.get "mimeType")
    | none => (none, none)
  let lc ← parseLiteralData (LCFields.mk [] [] none none) outputElement "LiteralData"
  let lc := parseComplexData lc outputElement "ComplexOutput"
  let (dataType, mimeType, data) :=
    match outputElement.find (nspath "Data" WPS_NAMESPACE) with
    | some dataElement =>
      match dataElement.find (nspath "ComplexData" WPS_NAMESPACE) with
      | some complexDataElement =>
          (some "ComplexData", complexDataElement.get "mimeType", complexDataElement.text)
      | none => (lc.dataType, mimeType, none)
    | none => (lc.dataType, mimeType, none)
  Except.ok (OutputM.mk identifier title abstract lc.allowedValues lc.supportedValues
    lc.defaultValue dataType reference mimeType data)

/-- The `Process` class: metadata of a WPS process. -/
structure ProcessM where
  processVersion : Option String
  statusSupported : Bool
  storeSupported : Bool
  identifier : Option String
  title : Option String
  abstract : Option String
  dataInputs : List InputM
  processOutputs : List OutputM

/-- `Process.__init__(elem)`: attribute flags (Python truthiness of the
raw attribute string), base metadata, and the declared inputs and
outputs (looked up through the unqualified paths `DataInputs/Input` and
`ProcessOutputs/Output`, exactly as in the source). -/
def ProcessM.ofElem (elem : Elem) : Except String ProcessM := do
  let processVersion := elem.get (nspath "processVersion" WPS_NAMESPACE)
  let statusSupported := pybool (elem.get "statusSupported")
  let storeSupported := pybool (elem.get "storeSupported")
  let identifier := parseText (elem.find (nspath "Identifier" DEFAULT_OWS_NAMESPACE))
  let title := parseText (elem.find (nspath "Title" DEFAULT_OWS_NAMESPACE))
  let abstract := parseText (elem.find (nspath "Abstract" DEFAULT_OWS_NAMESPACE))
  let dataInputs ← exceptMapList InputM.ofElem (elem.findallPath2 "DataInputs" "Input")
  let processOutputs ← exceptMapList OutputM.ofElem (elem.findallPath2 "ProcessOutputs" "Output")
  Except.ok (ProcessM.mk processVersion statusSupported storeSupported identifier title
    abstract dataInputs processOutputs)

/-- The `WPSException` class: one entry per `ows:Exception` element of an
exception report; when the `ows:ExceptionText` child is absent the text
defaults to the empty string (kept as `some ""` here, against `none` for
a present but empty element, mirroring Python `""` against `None`). -/
structure WPSException where
  code : Option String
  locator : Option String
  text : Option String

def WPSException.ofElem (root : Elem) : WPSException :=
  { code := root.get "exceptionCode"
    locator := root.get "locator"
    text :=
      match root.find (nspath "ExceptionText" DEFAULT_OWS_NAMESPACE) with
      | some textEl => textEl.text
      | none => some "" }

/-- The `WPSExecution` class: the mutable aggregate of one job. -/
structure WPSExecution where
  url : Option String
  version : String
  username : Option String
  password : Option String
  verbose : Bool
  process : Option ProcessM
  serviceInstance : Option String
  status : Option String
  errors : List WPSException
  statusLocation : Option String
  dataInputs : List InputM
  processOutputs : List OutputM

/-- `WPSExecution.__init__`: every response-derived field starts unset
(`None` / empty list). -/
def WPSExecution.init (url : Option String) (username : Option String)
    (password : Option String) : WPSExecution :=
  { url := url
    version := WPS_DEFAULT_VERSION
    username := username
    password := password
    verbose := false
    process := none
    serviceInstance := none
    status := none
    errors := []
    statusLocation := none
    dataInputs := []
    processOutputs := [] }

/-- `WPSExecution.isComplete`: the three terminal statuses answer true,
`ProcessStarted`, `ProcessAccepted` and `ProcessPaused` answer false,
and every other value of the status field — the unset initial state
included — raises the unknown-status exception. -/
def WPSExecution.isComplete (st : WPSExecution) : Except String Bool :=
  if st.status = some "ProcessSucceeded" ∨ st.status = some "ProcessFailed" ∨
      st.status = some "Exception" then
    Except.ok true
  else if st.status = some "ProcessStarted" then
    Except.ok false
  else if st.status = some "ProcessAccepted" ∨ st.status = some "ProcessPaused" then
    Except.ok false
  else
    Except.error ("Unknown process execution status: " ++ pyShowOpt st.status)

/-- `WPSExecution.isSucceded` (spelling of the source): true exactly on
`ProcessSucceeded`, never raises. -/
def WPSExecution.isSucceded (st : WPSExecution) : Bool :=
  if st.status = some "ProcessSucceeded" then true else false

/-- `WPSExecution._parseExceptionReport(root)`: sets the synthetic
`Exception` status unless a status is already present, and appends one
`WPSException` per direct `ows:Exception` child, in document order. -/
def WPSExecution.parseExceptionReport (root : Elem) (st : WPSExecution) : WPSExecution :=
  let st := if st.status = none then { st with status := some "Exception" } else st
  { st with errors := st.errors ++
      (root.findall (nspath "Exception" DEFAULT_OWS_NAMESPACE)).map WPSException.ofElem }

/-- `WPSExecution._parseExecuteResponse(root)`: reads the
`serviceInstance` and `statusLocation` attributes, takes the local name
of the first child under `wps:Status` as the new status (an
`AttributeError` when no such child exists, an `IndexError` when its tag
carries no namespace brace), refreshes the process metadata (an
`AttributeError` when the `wps:Process` element is missing), recurses
into a nested `ows:ExceptionReport` under the status element, and then
appends — without clearing — one entry per `DataInputs/Input` and per
`ProcessOutputs/Output` element to the running lists. -/
def WPSExecution.parseExecuteResponse (root : Elem) (st : WPSExecution) :
    Except String WPSExecution :=
  let st := { st with serviceInstance := root.get "serviceInstance"
                      statusLocation := root.get "statusLocation" }
  match root.findPath2Any (nspath "Status" WPS_NAMESPACE) with
  | none => Except.error "AttributeError: NoneType object has no attribute tag"
  | some statusEl =>
    match pySplitIdx1 statusEl.tag '\x7d' with
    | none => Except.error "IndexError: list index out of range"
    | some statusTag =>
      let st := { st with status := some statusTag }
      match root.find (nspath "Process" WPS_NAMESPACE) with
      | none => Except.error "AttributeError: NoneType object has no attribute get"
      | some processElement =>
        match ProcessM.ofElem processElement with
        | Except.error e => Except.error e
        | Except.ok proc =>
          let st := { st with process := some proc }
          let st :=
            match statusEl.find (nspath "ExceptionReport" DEFAULT_OWS_NAMESPACE) with
            | some exceptionEl => WPSExecution.parseExceptionReport exceptionEl st
            | none => st
          match exceptMapList InputM.ofElem
            (root.findallPath2 (nspath "DataInputs" WPS_NAMESPACE)
              (nspath "Input" WPS_NAMESPACE)) with
          | Except.error e => Except.error e
          | Except.ok ins =>
            let st := { st with dataInputs := st.dataInputs ++ ins }
            match exceptMapList OutputM.ofElem
              (root.findallPath2 (nspath "ProcessOutputs" WPS_NAMESPACE)
                (nspath "Output" WPS_NAMESPACE)) with
            | Except.error e => Except.error e
            | Except.ok outs =>
                Except.ok { st with processOutputs := st.processOutputs ++ outs }

/-- `WPSExecution.parseResponse(response)`: dispatches on the part of
the root tag after the first closing brace (an `IndexError` when the tag
carries no namespace); `ExecuteResponse` and `ExceptionReport` go to
their parsers, anything else only prints and leaves the state as it is. -/
def WPSExecution.parseResponse (response : Elem) (st : WPSExecution) :
    Except String WPSExecution :=
  match pySplitIdx1 response.tag '\x7d' with
  | none => Except.error "IndexError: list index out of range"
  | some rootTag =>
    if rootTag = "ExecuteResponse" then
      WPSExecution.parseExecuteResponse response st
    else if rootTag = "ExceptionReport" then
      Except.ok (WPSExecution.parseExceptionReport response st)
    else
      Except.ok st

/-- The value side of a `(key, value)` request input: a plain string
(LiteralData) or an object whose `getXml()` yields an XML fragment. -/
inductive WPSInputValue : Type where
  | str (s : String)
  | complexXml (x : Elem)

/-- The `wps:Input` element built for one `(key, value)` pair inside
`buildRequest`: identifier child, then either a `wps:Data/wps:LiteralData`
wrapper for a string value or the fragment returned by `getXml()`. -/
def mkInputElem : String × WPSInputValue → Elem
  | (key, WPSInputValue.str v) =>
      Elem.mk (nspath "Input" WPS_NAMESPACE) [] none
        [Elem.mk (nspath "Identifier" DEFAULT_OWS_NAMESPACE) [] (some key) [],
         Elem.mk (nspath "Data" WPS_NAMESPACE) [] none
           [Elem.mk (nspath "LiteralData" WPS_NAMESPACE) [] (some v) []]]
  | (key, WPSInputValue.complexXml x) =>
      Elem.mk (nspath "Input" WPS_NAMESPACE) [] none
        [Elem.mk (nspath "Identifier" DEFAULT_OWS_NAMESPACE) [] (some key) [], x]

/-- `WPSExecution.buildRequest(identifier, inputs, output)`: the
`wps:Execute` root with its service/version/schema-location attributes,
the `ows:Identifier` child, a `wps:DataInputs` container holding one
`wps:Input` per pair in the given order, and — only when an output
identifier is supplied — a trailing `wps:ResponseForm` block requesting
that output by reference with stored responses and status reporting. -/
def WPSExecution.buildRequest (identifier : String)
    (inputs : List (String × WPSInputValue)) (output : Option String) : Elem :=
  Elem.mk (nspath "Execute" WPS_NAMESPACE)
    [("service", "WPS"),
     ("version", WPS_DEFAULT_VERSION),
     ("xmlns:ows", DEFAULT_OWS_NAMESPACE),
     ("xmlns:xlink", XLINK_NAMESPACE),
     (nspath "schemaLocation" XSI_NAMESPACE, WPS_NAMESPACE ++ " " ++ WPS_SCHEMA_LOCATION)]
    none
    ([Elem.mk (nspath "Identifier" DEFAULT_OWS_NAMESPACE) [] (some identifier) [],
      Elem.mk (nspath "DataInputs" WPS_NAMESPACE) [] none (inputs.map mkInputElem)] ++
     (match output with
      | none => []
      | some o =>
        [Elem.mk (nspath "ResponseForm" WPS_NAMESPACE) [] none
          [Elem.mk (nspath "ResponseDocument" WPS_NAMESPACE)
            [("storeExecuteResponse", "true"), ("status", "true")] none
            [Elem.mk (nspath "Output" WPS_NAMESPACE) [("asReference", "true")] none
              [Elem.mk (nspath "Identifier" DEFAULT_OWS_NAMESPACE) [] (some o) []]]]]))

/-- Observable effects of one `checkStatus` call: the URL a GET was
issued against (if any) and the seconds slept (if any). -/
structure CheckTrace where
  fetched : Option String
  slept : Option Nat

/-- The tail of `checkStatus` once a response document is in hand
(source lines 456-461): parse it, then sleep for the given seconds
exactly when `isComplete()` answers false; an unknown status propagates
as an error before any sleep. -/
def checkStatusFinish (doc : Elem) (sleepSecs : Nat) (st : WPSExecution)
    (fetched : Option String) : Except String (WPSExecution × CheckTrace) :=
  match WPSExecution.parseResponse doc st with
  | Except.error e => Except.error e
  | Except.ok st =>
    match WPSExecution.isComplete st with
    | Except.error e => Except.error e
    | Except.ok complete =>
        Except.ok (st, CheckTrace.mk fetched
          (if complete = false then some sleepSecs else none))

/-- `WPSExecution.checkStatus(url, response, sleepSecs)`: with an inline
response the document is parsed directly and the `url` argument is never
read; otherwise the status location is first overridden by `url` when
given, then fetched with a GET (a crash inside `build_get_url` when no
location is known at all).  After parsing, the call sleeps for
`sleepSecs` exactly when `isComplete()` answers false; an unknown status
propagates as an error before any sleep.  The remote service is the
`fetch` oracle mapping a URL to the document it returns. -/
def WPSExecution.checkStatus (fetch : String → Elem) (url : Option String)
    (response : Option Elem) (sleepSecs : Nat) (st : WPSExecution) :
    Except String (WPSExecution × CheckTrace) :=
  match response with
  | none =>
    let st :=
      match url with
      | some u => { st with statusLocation := some u }
      | none => st
    match st.statusLocation with
    | some loc => checkStatusFinish (fetch loc) sleepSecs st (some loc)
    | none => Except.error "AttributeError: NoneType object has no attribute split"
  | some doc => checkStatusFinish doc sleepSecs st none

/-- One file write performed by `getOutput`: the target path and the
reference URL whose fetched bytes were written there. -/
structure FileWrite where
  path : String
  url : String
deriving DecidableEq

/-- The filename `getOutput` derives from a reference URL when no
filepath is bound yet: the part of the query string between its first
and second equals sign when the URL contains a question mark (an
`IndexError` when there is none), otherwise the final path segment. -/
def deriveFilename (url : String) : Option String :=
  match pySplit url '?' with
  | _base :: query :: _ => pySplitIdx1 query '='
  | _ => some ((pySplit url '/').getLastD "")

/-- The loop body of `getOutput` over `processOutputs`: for each output
carrying a reference the bytes are fetched and written; the `filepath`
variable is assigned only while it is still `None`, so once derived from
the first reference URL it is reused for every later write of the same
call.  Outputs carrying only inline data are printed, not written. -/
def getOutputGo : List OutputM → Option String → Except String (List FileWrite)
  | [], _ => Except.ok []
  | o :: rest, filepath =>
    match o.reference with
    | none => getOutputGo rest filepath
    | some url =>
      let fpE : Except String String :=
        match pySplit url '?' with
        | _base :: query :: _ =>
          match filepath with
          | some f => Except.ok f
          | none =>
            match pySplitIdx1 query '=' with
            | some f => Except.ok f
            | none => Except.error "IndexError: list index out of range"
        | _ =>
          match filepath with
          | some f => Except.ok f
          | none => Except.ok ((pySplit url '/').getLastD "")
      match fpE with
      | Except.error e => Except.error e
      | Except.ok fp =>
        match getOutputGo rest (some fp) with
        | Except.error e => Except.error e
        | Except.ok ws => Except.ok (FileWrite.mk fp url :: ws)

/-- `WPSExecution.getOutput(filepath)`: refuses with the
not-successfully-completed error unless `isSucceded()`, and otherwise
writes every by-reference output, returning the writes performed. -/
def WPSExecution.getOutput (st : WPSExecution) (filepath : Option String) :
    Except String (List FileWrite) :=
  if st.isSucceded then
    getOutputGo st.processOutputs filepath
  else
    Except.error ("Execution not successfully completed: status=" ++ pyShowOpt st.status)

/-- Reader for the round-trip property (the spec side of claim C6, spec
section 8): the `(name, value)` pair recovered from one built
`wps:Input` element. -/
def extractInput (inp : Elem) : Option String × Option String :=
  (parseText (inp.find (nspath "Identifier" DEFAULT_OWS_NAMESPACE)),
   parseText (inp.findPath2First (nspath "Data" WPS_NAMESPACE)
     (nspath "LiteralData" WPS_NAMESPACE)))

/-- Reader for the round-trip property: the process identifier and the
ordered `(name, value)` pairs read back from a built Execute request. -/
def readBackExecuteRequest (root : Elem) :
    Option String × List (Option String × Option String) :=
  (parseText (root.find (nspath "Identifier" DEFAULT_OWS_NAMESPACE)),
   (root.findallPath2 (nspath "DataInputs" WPS_NAMESPACE)
     (nspath "Input" WPS_NAMESPACE)).map extractInput)

/- Concrete fixtures: small documents and states used to instantiate the
theorems below on closed inputs. -/

/-- A freshly initialized execution (no response parsed yet). -/
def emptyExecution : WPSExecution := WPSExecution.init none none none

/-- An execution whose last parsed status is `ProcessStarted`. -/
def startedExecution : WPSExecution := { emptyExecution with status := some "ProcessStarted" }

/-- A document whose root tag carries no namespace brace at all. -/
def bareRootDoc : Elem := Elem.mk "Foo" [] none []

/-- A namespace-qualified document whose local root name is neither
`ExecuteResponse` nor `ExceptionReport`. -/
def qualifiedOtherDoc : Elem := Elem.mk (nspath "Capabilities" "urn:example") [] none []

/-- An `ows:ExceptionReport` document with two exception entries. -/
def exceptionReportDoc : Elem :=
  Elem.mk (nspath "ExceptionReport" DEFAULT_OWS_NAMESPACE) [] none
    [Elem.mk (nspath "Exception" DEFAULT_OWS_NAMESPACE)
       [("exceptionCode", "NoApplicableCode"), ("locator", "L1")] none
       [Elem.mk (nspath "ExceptionText" DEFAULT_OWS_NAMESPACE) [] (some "boom") []],
     Elem.mk (nspath "Exception" DEFAULT_OWS_NAMESPACE) [] none []]

/-- A by-reference `wps:Output` element of an execute response. -/
def referenceOutputElem : Elem :=
  Elem.mk (nspath "Output" WPS_NAMESPACE) [] none
    [Elem.mk (nspath "Identifier" DEFAULT_OWS_NAMESPACE) [] (some "OUTPUT") [],
     Elem.mk (nspath "Reference" WPS_NAMESPACE)
       [("href", "http://x/files/a.tif"), ("mimeType", "image/tiff")] none []]

/-- A `ProcessSucceeded` execute response carrying one by-reference output. -/
def executeResponseDoc : Elem :=
  Elem.mk (nspath "ExecuteResponse" WPS_NAMESPACE)
    [("serviceInstance", "http://svc"), ("statusLocation", "http://loc")] none
    [Elem.mk (nspath "Status" WPS_NAMESPACE) [] none
       [Elem.mk (nspath "ProcessSucceeded" WPS_NAMESPACE) [] (some "done") []],
     Elem.mk (nspath "Process" WPS_NAMESPACE) [] none
       [Elem.mk (nspath "Identifier" DEFAULT_OWS_NAMESPACE) [] (some "P1") []],
     Elem.mk (nspath "ProcessOutputs" WPS_NAMESPACE) [] none [referenceOutputElem]]

/-- An execute response whose `wps:Status` element has no child. -/
def statuslessResponseDoc : Elem :=
  Elem.mk (nspath "ExecuteResponse" WPS_NAMESPACE) [] none
    [Elem.mk (nspath "Status" WPS_NAMESPACE) [] none []]

/-- An execution-result output carrying only a reference URL. -/
def mkReferenceOutput (u : String) : OutputM :=
  OutputM.mk (some "OUTPUT") none none [] [] none none (some u) none none

/-- A succeeded execution holding two by-reference outputs with
different URLs (one query-string style, one plain-path style). -/
def twoReferenceState : WPSExecution := { emptyExecution with
  status := some "ProcessSucceeded"
  processOutputs :=
    [mkReferenceOutput "http://h/p/RetrieveResultServlet?id=123OUT.abc",
     mkReferenceOutput "http://h/q/other.tif"] }

/-- A remote service that always answers with the succeeded response. -/
def constFetch : String → Elem := fun _ => executeResponseDoc

/-- The state produced by one inline-response `checkStatus` call on the
exception report (computed, for use as a closed instance). -/
def inlineCheckState : WPSExecution :=
  ((WPSExecution.checkStatus constFetch none (some exceptionReportDoc) 5
      emptyExecution).toOption.map Prod.fst).getD emptyExecution

/-- The trace of the same `checkStatus` call. -/
def inlineCheckTrace : CheckTrace :=
  ((WPSExecution.checkStatus constFetch none (some exceptionReportDoc) 5
      emptyExecution).toOption.map Prod.snd).getD (CheckTrace.mk none none)

/-- The state after parsing `executeResponseDoc` once into a fresh
execution (computed, for use as a closed instance). -/
def onceParsedState : WPSExecution :=
  (WPSExecution.parseExecuteResponse executeResponseDoc emptyExecution).toOption.getD
    emptyExecution

/-- The request the EchoProcess scenario of the spec must build: one
literal input, no response form. -/
def echoRequestDoc : Elem :=
  Elem.mk (nspath "Execute" WPS_NAMESPACE)
    [("service", "WPS"),
     ("version", WPS_DEFAULT_VERSION),
     ("xmlns:ows", DEFAULT_OWS_NAMESPACE),
     ("xmlns:xlink", XLINK_NAMESPACE),
     (nspath "schemaLocation" XSI_NAMESPACE, WPS_NAMESPACE ++ " " ++ WPS_SCHEMA_LOCATION)]
    none
    [Elem.mk (nspath "Identifier" DEFAULT_OWS_NAMESPACE) [] (some "EchoProcess") [],
     Elem.mk (nspath "DataInputs" WPS_NAMESPACE) [] none
       [Elem.mk (nspath "Input" WPS_NAMESPACE) [] none
         [Elem.mk (nspath "Identifier" DEFAULT_OWS_NAMESPACE) [] (some "message") [],
          Elem.mk (nspath "Data" WPS_NAMESPACE) [] none
            [Elem.mk (nspath "LiteralData" WPS_NAMESPACE) [] (some "hello") []]]]]

/-- The writes `getOutput` performs on `twoReferenceState` with no
explicit filepath: both land on the name derived from the first URL. -/
def c10Writes : List FileWrite :=
  [FileWrite.mk "123OUT.abc" "http://h/p/RetrieveResultServlet?id=123OUT.abc",
   FileWrite.mk "123OUT.abc" "http://h/q/other.tif"]

/- Theorems. -/

/-- C1 (counterexample): on a freshly initialized execution — the
`Unset` state of the claim — `isComplete()` does not return false: it
raises the unknown-status exception, so the claim's placement of `Unset`
in the false-returning set is wrong. -/
theorem isComplete_unset_raises :
    WPSExecution.isComplete emptyExecution =
      Except.error "Unknown process execution status: None" := by
  rfl

/-- C1 (amended): `isComplete()` returns true exactly on the three
terminal statuses, returns false exactly on `ProcessAccepted`,
`ProcessStarted` and `ProcessPaused`, and raises the unknown-status
error for every other value of the status field — the unset initial
state included. -/
theorem isComplete_characterization (st : WPSExecution) :
    (st.isComplete = Except.ok true ↔
      (st.status = some "ProcessSucceeded" ∨ st.status = some "ProcessFailed" ∨
        st.status = some "Exception")) ∧
    (st.isComplete = Except.ok false ↔
      (st.status = some "ProcessAccepted" ∨ st.status = some "ProcessStarted" ∨
        st.status = some "ProcessPaused")) ∧
    ((∃ e, st.isComplete = Except.error e) ↔
      ¬ (st.status = some "ProcessSucceeded" ∨ st.status = some "ProcessFailed" ∨
          st.status = some "Exception" ∨ st.status = some "ProcessAccepted" ∨
          st.status = some "ProcessStarted" ∨ st.status = some "ProcessPaused")) := by
  rcases hs : st.status with _ | s
  · simp [WPSExecution.isComplete, hs]
  · simp only [WPSExecution.isComplete, hs]
    by_cases h1 : s = "ProcessSucceeded" <;>
      by_cases h2 : s = "ProcessFailed" <;>
      by_cases h3 : s = "Exception" <;>
      by_cases h4 : s = "ProcessAccepted" <;>
      by_cases h5 : s = "ProcessStarted" <;>
      by_cases h6 : s = "ProcessPaused" <;>
      simp_all

/-- C2: `getOutput` on an execution whose status is not
`ProcessSucceeded` fails immediately with the not-successfully-completed
error: no fetch is issued, no file is written, and the execution is left
untouched (the source method assigns no field of `self` at all). -/
theorem getOutput_requires_success (st : WPSExecution) (fp : Option String)
    (h : st.status ≠ some "ProcessSucceeded") :
    WPSExecution.getOutput st fp =
      Except.error ("Execution not successfully completed: status=" ++ pyShowOpt st.status) := by
  unfold WPSExecution.getOutput WPSExecution.isSucceded
  simp [h]

/-- C2 (witness): the started execution refuses `getOutput`. -/
theorem getOutput_requires_success_witness :
    WPSExecution.getOutput startedExecution none =
      Except.error "Execution not successfully completed: status=ProcessStarted" :=
  getOutput_requires_success startedExecution none (by decide)

/-- C3 (counterexample): a document whose root tag carries no namespace
brace — its local name, `Foo`, is neither `ExecuteResponse` nor
`ExceptionReport` — does not make `parseResponse` a silent no-op: the
dispatch itself raises an `IndexError` while splitting the tag. -/
theorem parseResponse_bare_root_raises :
    WPSExecution.parseResponse bareRootDoc emptyExecution =
      Except.error "IndexError: list index out of range" := by
  rfl

/-- C3 (amended): for every document whose root tag is
namespace-qualified (the split on the closing brace yields a second
part) and whose local root name is neither `ExecuteResponse` nor
`ExceptionReport`, `parseResponse` returns the execution unchanged and
raises nothing; a root tag without a namespace brace instead raises an
index error in the dispatch. -/
theorem parseResponse_other_root_noop (doc : Elem) (st : WPSExecution) (r : String)
    (hq : pySplitIdx1 doc.tag '\x7d' = some r)
    (h1 : r ≠ "ExecuteResponse") (h2 : r ≠ "ExceptionReport") :
    WPSExecution.parseResponse doc st = Except.ok st := by
  unfold WPSExecution.parseResponse
  rw [hq]
  simp [h1, h2]

/-- C3 (witness): a qualified capabilities-like document leaves the
started execution exactly as it was. -/
theorem parseResponse_other_root_noop_witness :
    WPSExecution.parseResponse qualifiedOtherDoc startedExecution =
      Except.ok startedExecution :=
  parseResponse_other_root_noop qualifiedOtherDoc startedExecution "Capabilities"
    (by rfl) (by decide) (by decide)

/-- C4: parsing an exception report sets the synthetic `Exception`
status exactly when no status was set before (otherwise the status is
kept), and appends — never raising — one `WPSException` per
`ows:Exception` element of the report, in document order, each built
from the element's `exceptionCode`, `locator` and `ows:ExceptionText`. -/
theorem parseExceptionReport_spec (doc : Elem) (st : WPSExecution) :
    ((WPSExecution.parseExceptionReport doc st).status =
      if st.status = none then some "Exception" else st.status) ∧
    ((WPSExecution.parseExceptionReport doc st).errors =
      st.errors ++
        (doc.findall (nspath "Exception" DEFAULT_OWS_NAMESPACE)).map WPSException.ofElem) := by
  unfold WPSExecution.parseExceptionReport
  by_cases h : st.status = none <;> simp [h]

/-- C5: an `ExecuteResponse` whose `wps:Status` element has no child
element (the `Status/*` lookup finds nothing) makes
`parseExecuteResponse` fail with the structural attribute error instead
of completing with some substitute status. -/
theorem parseExecuteResponse_missing_status (doc : Elem) (st : WPSExecution)
    (h : doc.findPath2Any (nspath "Status" WPS_NAMESPACE) = none) :
    WPSExecution.parseExecuteResponse doc st =
      Except.error "AttributeError: NoneType object has no attribute tag" := by
  unfold WPSExecution.parseExecuteResponse
  rw [h]

/-- C5 (witness): the concrete childless-status response is rejected. -/
theorem parseExecuteResponse_missing_status_witness :
    WPSExecution.parseExecuteResponse statuslessResponseDoc emptyExecution =
      Except.error "AttributeError: NoneType object has no attribute tag" :=
  parseExecuteResponse_missing_status statuslessResponseDoc emptyExecution (by rfl)

/-- The built input elements of all-literal pairs, filtered and read
back, recover exactly the original `(name, value)` pairs in order. -/
theorem extract_inputs_list (pairs : List (String × String)) :
    (((pairs.map (fun p => (p.1, WPSInputValue.str p.2))).map mkInputElem).filter
        (fun c => c.tag == nspath "Input" WPS_NAMESPACE)).map extractInput
      = pairs.map (fun p => (some p.1, some p.2)) := by
  induction pairs with
  | nil => rfl
  | cons p ps ih =>
    have h1 : (((p :: ps).map (fun q => (q.1, WPSInputValue.str q.2))).map mkInputElem).filter
          (fun c => c.tag == nspath "Input" WPS_NAMESPACE)
        = mkInputElem (p.1, WPSInputValue.str p.2) ::
          (((ps.map (fun q => (q.1, WPSInputValue.str q.2))).map mkInputElem).filter
            (fun c => c.tag == nspath "Input" WPS_NAMESPACE)) := rfl
    rw [h1, List.map_cons, ih]
    rfl

/-- The identifier written by `buildRequest` is read back unchanged. -/
theorem buildRequest_identifier (identifier : String)
    (inputs : List (String × WPSInputValue)) (output : Option String) :
    parseText ((WPSExecution.buildRequest identifier inputs output).find
      (nspath "Identifier" DEFAULT_OWS_NAMESPACE)) = some identifier := by
  cases output <;> rfl

/-- The `DataInputs/Input` elements of a built request are exactly the
per-pair input elements (whatever trailing response form is present). -/
theorem buildRequest_inputs (identifier : String)
    (inputs : List (String × WPSInputValue)) (output : Option String) :
    (WPSExecution.buildRequest identifier inputs output).findallPath2
        (nspath "DataInputs" WPS_NAMESPACE) (nspath "Input" WPS_NAMESPACE)
      = (inputs.map mkInputElem).filter
          (fun c => c.tag == nspath "Input" WPS_NAMESPACE) := by
  cases output with
  | none =>
    show (inputs.map mkInputElem).filter _ ++ [] = _
    exact List.append_nil _
  | some o =>
    show (inputs.map mkInputElem).filter _ ++ [] = _
    exact List.append_nil _

/-- C6 (round-trip): building an Execute request from a process
identifier and an ordered list of literal `(name, value)` pairs and
reading the document back recovers the same identifier and the same
pairs in the same order — the builder emits one `wps:Input` per pair, in
the given order, holding the name as `ows:Identifier` and the value as
`wps:LiteralData` text. -/
theorem buildRequest_roundTrip (identifier : String) (pairs : List (String × String))
    (output : Option String) :
    readBackExecuteRequest (WPSExecution.buildRequest identifier
        (pairs.map (fun p => (p.1, WPSInputValue.str p.2))) output)
      = (some identifier, pairs.map (fun p => (some p.1, some p.2))) := by
  have h1 := buildRequest_identifier identifier
    (pairs.map (fun p => (p.1, WPSInputValue.str p.2))) output
  have h2 := buildRequest_inputs identifier
    (pairs.map (fun p => (p.1, WPSInputValue.str p.2))) output
  unfold readBackExecuteRequest
  rw [h1, h2, extract_inputs_list]

/-- C7: a built request carries a `wps:ResponseForm` block exactly when
an output identifier was supplied; with one, the block is precisely the
`ResponseDocument` with stored responses and status reporting enabled
around an `asReference` output naming that identifier; and the
EchoProcess scenario with no output hint builds exactly the document
with one `LiteralData` of text `hello` and no `ResponseForm` at all. -/
theorem buildRequest_responseForm (identifier : String)
    (inputs : List (String × WPSInputValue)) :
    (∀ out : Option String,
      ((WPSExecution.buildRequest identifier inputs out).children.any
          (fun c => c.tag == nspath "ResponseForm" WPS_NAMESPACE)) = out.isSome) ∧
    (∀ o : String,
      ((WPSExecution.buildRequest identifier inputs (some o)).children.filter
          (fun c => c.tag == nspath "ResponseForm" WPS_NAMESPACE))
        = [Elem.mk (nspath "ResponseForm" WPS_NAMESPACE) [] none
            [Elem.mk (nspath "ResponseDocument" WPS_NAMESPACE)
              [("storeExecuteResponse", "true"), ("status", "true")] none
              [Elem.mk (nspath "Output" WPS_NAMESPACE) [("asReference", "true")] none
                [Elem.mk (nspath "Identifier" DEFAULT_OWS_NAMESPACE) [] (some o) []]]]]) ∧
    WPSExecution.buildRequest "EchoProcess" [("message", WPSInputValue.str "hello")] none
      = echoRequestDoc ∧
    (listJoinMap (fun inp => inp.findallPath2 (nspath "Data" WPS_NAMESPACE)
        (nspath "LiteralData" WPS_NAMESPACE))
      (echoRequestDoc.findallPath2 (nspath "DataInputs" WPS_NAMESPACE)
        (nspath "Input" WPS_NAMESPACE))).map Elem.text = [some "hello"] ∧
    echoRequestDoc.children.filter
      (fun c => c.tag == nspath "ResponseForm" WPS_NAMESPACE) = [] := by
  refine ⟨?_, ?_, ?_, ?_, ?_⟩
  · intro out
    cases out <;> rfl
  · intro o
    rfl
  · rfl
  · rfl
  · rfl

/-- Whatever a successful `checkStatusFinish` returns: the parsed state,
the fetched-URL record passed through, and a sleep exactly when the
parsed state is non-terminal. -/
theorem checkStatusFinish_ok (doc : Elem) (secs : Nat) (st : WPSExecution)
    (fetched : Option String) (st' : WPSExecution) (tr : CheckTrace)
    (h : checkStatusFinish doc secs st fetched = Except.ok (st', tr)) :
    WPSExecution.parseResponse doc st = Except.ok st' ∧ tr.fetched = fetched ∧
    (tr.slept = some secs ↔ WPSExecution.isComplete st' = Except.ok false) := by
  unfold checkStatusFinish at h
  split at h
  · exact absurd h (by simp)
  · rename_i st1 hp
    split at h
    · exact absurd h (by simp)
    · rename_i c hc
      rw [Except.ok.injEq, Prod.mk.injEq] at h
      obtain ⟨h1, h2⟩ := h
      subst h1
      subst h2
      refine ⟨hp, rfl, ?_⟩
      cases c with
      | false => simp [hc]
      | true => simp [hc]

/-- C8: `checkStatus` parses an inline response directly — the `url`
argument is then never consulted (so the status location is not
overwritten by it) and no GET is issued; without an inline response it
issues a GET against the overridden (else the current) status location;
and, in every successful case, it suspends for the given seconds exactly
when the state after parsing is non-terminal (`isComplete()` false). -/
theorem checkStatus_spec (fetch : String → Elem) (st : WPSExecution) (secs : Nat) :
    (∀ doc u, WPSExecution.checkStatus fetch (some u) (some doc) secs st
        = WPSExecution.checkStatus fetch none (some doc) secs st) ∧
    (∀ doc st' tr,
        WPSExecution.checkStatus fetch none (some doc) secs st = Except.ok (st', tr) →
        tr.fetched = none ∧ WPSExecution.parseResponse doc st = Except.ok st') ∧
    (∀ u st' tr,
        WPSExecution.checkStatus fetch (some u) none secs st = Except.ok (st', tr) →
        tr.fetched = some u ∧
          WPSExecution.parseResponse (fetch u) { st with statusLocation := some u }
            = Except.ok st') ∧
    (∀ loc st' tr, st.statusLocation = some loc →
        WPSExecution.checkStatus fetch none none secs st = Except.ok (st', tr) →
        tr.fetched = some loc) ∧
    (∀ url response st' tr,
        WPSExecution.checkStatus fetch url response secs st = Except.ok (st', tr) →
        (tr.slept = some secs ↔ WPSExecution.isComplete st' = Except.ok false)) := by
  refine ⟨?_, ?_, ?_, ?_, ?_⟩
  · intro doc u
    rfl
  · intro doc st' tr h
    obtain ⟨hp, hf, _⟩ := checkStatusFinish_ok doc secs st none st' tr h
    exact ⟨hf, hp⟩
  · intro u st' tr h
    obtain ⟨hp, hf, _⟩ := checkStatusFinish_ok (fetch u) secs
      { st with statusLocation := some u } (some u) st' tr h
    exact ⟨hf, hp⟩
  · intro loc st' tr hloc h
    have h2 : (match st.statusLocation with
        | some l => checkStatusFinish (fetch l) secs st (some l)
        | none => Except.error "AttributeError: NoneType object has no attribute split")
        = Except.ok (st', tr) := h
    rw [hloc] at h2
    exact (checkStatusFinish_ok (fetch loc) secs st (some loc) st' tr h2).2.1
  · intro url response st' tr h
    cases response with
    | some doc => exact (checkStatusFinish_ok doc secs st none st' tr h).2.2
    | none =>
      cases url with
      | some u =>
        exact (checkStatusFinish_ok (fetch u) secs
          { st with statusLocation := some u } (some u) st' tr h).2.2
      | none =>
        have h2 : (match st.statusLocation with
            | some l => checkStatusFinish (fetch l) secs st (some l)
            | none => Except.error "AttributeError: NoneType object has no attribute split")
            = Except.ok (st', tr) := h
        cases hloc : st.statusLocation with
        | some loc =>
          rw [hloc] at h2
          exact (checkStatusFinish_ok (fetch loc) secs st (some loc) st' tr h2).2.2
        | none =>
          rw [hloc] at h2
          exact absurd h2 (by simp)

/-- C8 (witness): the inline exception-report call on a fresh execution
parses directly, terminally, and sleeps not at all. -/
theorem checkStatus_spec_witness :
    inlineCheckTrace.slept = some 5 ↔
      WPSExecution.isComplete inlineCheckState = Except.ok false :=
  (checkStatus_spec constFetch emptyExecution 5).2.2.2.2 none (some exceptionReportDoc)
    inlineCheckState inlineCheckTrace (by rfl)

/-- Parsing an exception report never touches the echoed input list. -/
theorem parseExceptionReport_dataInputs (ex : Elem) (st : WPSExecution) :
    (WPSExecution.parseExceptionReport ex st).dataInputs = st.dataInputs := by
  unfold WPSExecution.parseExceptionReport
  by_cases h : st.status = none <;> simp [h]

/-- Parsing an exception report never touches the result list. -/
theorem parseExceptionReport_processOutputs (ex : Elem) (st : WPSExecution) :
    (WPSExecution.parseExceptionReport ex st).processOutputs = st.processOutputs := by
  unfold WPSExecution.parseExceptionReport
  by_cases h : st.status = none <;> simp [h]

/-- C9 (counterexample): parsing the same one-output execute response
twice into the same execution leaves two entries in `processOutputs`,
although the second document holds exactly one `Output` element — the
lists accumulate across polls instead of being rebuilt. -/
theorem parseExecuteResponse_accumulates :
    (WPSExecution.parseExecuteResponse executeResponseDoc emptyExecution >>=
        WPSExecution.parseExecuteResponse executeResponseDoc).map
        (fun st => st.processOutputs.length) = Except.ok 2 ∧
    (executeResponseDoc.findallPath2 (nspath "ProcessOutputs" WPS_NAMESPACE)
        (nspath "Output" WPS_NAMESPACE)).length = 1 :=
  ⟨rfl, rfl⟩

/-- C9 (amended): each successful `parseExecuteResponse` appends the
document's entries to the existing `dataInputs` and `processOutputs`
instead of replacing them: the prior entries survive unchanged as a
prefix, followed by exactly the entries parsed from this document. -/
theorem parseExecuteResponse_appends (doc : Elem) (st st' : WPSExecution)
    (h : WPSExecution.parseExecuteResponse doc st = Except.ok st') :
    ∃ ins outs,
      exceptMapList InputM.ofElem (doc.findallPath2 (nspath "DataInputs" WPS_NAMESPACE)
        (nspath "Input" WPS_NAMESPACE)) = Except.ok ins ∧
      exceptMapList OutputM.ofElem (doc.findallPath2 (nspath "ProcessOutputs" WPS_NAMESPACE)
        (nspath "Output" WPS_NAMESPACE)) = Except.ok outs ∧
      st'.dataInputs = st.dataInputs ++ ins ∧
      st'.processOutputs = st.processOutputs ++ outs := by
  unfold WPSExecution.parseExecuteResponse at h
  split at h
  · exact absurd h (by simp)
  · rename_i statusEl hst
    split at h
    · exact absurd h (by simp)
    · rename_i statusTag htag
      split at h
      · exact absurd h (by simp)
      · rename_i processElement hpe
        split at h
        · exact absurd h (by simp)
        · rename_i proc hpm
          split at h <;>
            (split at h
             · exact absurd h (by simp)
             · rename_i ins hins
               split at h
               · exact absurd h (by simp)
               · rename_i outs houts
                 rw [Except.ok.injEq] at h
                 subst h
                 refine ⟨ins, outs, hins, houts, ?_, ?_⟩ <;>
                   simp [parseExceptionReport_dataInputs,
                     parseExceptionReport_processOutputs])

/-- C9 (witness): the once-parsed state extends the fresh execution's
empty lists by exactly the document's entries. -/
theorem parseExecuteResponse_appends_witness :
    ∃ ins outs,
      exceptMapList InputM.ofElem (executeResponseDoc.findallPath2
        (nspath "DataInputs" WPS_NAMESPACE) (nspath "Input" WPS_NAMESPACE)) = Except.ok ins ∧
      exceptMapList OutputM.ofElem (executeResponseDoc.findallPath2
        (nspath "ProcessOutputs" WPS_NAMESPACE) (nspath "Output" WPS_NAMESPACE))
          = Except.ok outs ∧
      onceParsedState.dataInputs = emptyExecution.dataInputs ++ ins ∧
      onceParsedState.processOutputs = emptyExecution.processOutputs ++ outs :=
  parseExecuteResponse_appends executeResponseDoc emptyExecution onceParsedState (by rfl)

/-- Once the `filepath` variable of `getOutput` is bound, every later
write of the same call targets that very path: the loop never rebinds
it. -/
theorem getOutputGo_fixed (outs : List OutputM) (f : String) :
    ∀ ws, getOutputGo outs (some f) = Except.ok ws → ∀ w ∈ ws, w.path = f := by
  induction outs with
  | nil =>
    intro ws h w hw
    simp only [getOutputGo, Except.ok.injEq] at h
    subst h
    cases hw
  | cons o rest ih =>
    intro ws h w hw
    cases hr : o.reference with
    | none =>
      simp only [getOutputGo, hr] at h
      exact ih ws h w hw
    | some url =>
      rcases hq : pySplit url '?' with _ | ⟨a, _ | ⟨b, t⟩⟩ <;>
        (simp only [getOutputGo, hr, hq] at h
         cases hrec : getOutputGo rest (some f) with
         | error e => simp [hrec] at h
         | ok ws2 =>
           simp only [hrec, Except.ok.injEq] at h
           subst h
           rcases List.mem_cons.mp hw with hw1 | hw2
           · rw [hw1]
           · exact ih ws2 hrec w hw2)

/-- With no filepath given, the first by-reference output fixes the
write target: it is the name `deriveFilename` yields from that output's
URL, and every write of the call — the later outputs' included — lands
on it. -/
theorem getOutputGo_none_all (outs : List OutputM) :
    ∀ ws u f, getOutputGo outs none = Except.ok ws →
      outs.findSome? (fun o => o.reference) = some u →
      deriveFilename u = some f → ∀ w ∈ ws, w.path = f := by
  induction outs with
  | nil =>
    intro ws u f h h2 h3 w hw
    simp [List.findSome?] at h2
  | cons o rest ih =>
    intro ws u f h h2 h3 w hw
    cases hr : o.reference with
    | none =>
      simp only [List.findSome?_cons, hr] at h2
      simp only [getOutputGo, hr] at h
      exact ih ws u f h h2 h3 w hw
    | some url =>
      simp only [List.findSome?_cons, hr, Option.some.injEq] at h2
      subst h2
      unfold deriveFilename at h3
      rcases hq : pySplit url '?' with _ | ⟨a, _ | ⟨b, t⟩⟩ <;>
        (rw [hq] at h3
         simp only [Option.some.injEq] at h3
         simp only [getOutputGo, hr, hq] at h
         rw [h3] at h
         cases hrec : getOutputGo rest (some f) with
         | error e => simp [hrec] at h
         | ok ws2 =>
           simp only [hrec, Except.ok.injEq] at h
           subst h
           rcases List.mem_cons.mp hw with hw1 | hw2
           · rw [hw1]
           · exact getOutputGo_fixed rest f ws2 hrec w hw2)

/-- C10: in `getOutput` with no explicit filepath, the filename derived
from the first reference URL found among the outputs (query-string value
after the first equals sign when the URL has a question mark, else the
final path segment) stays bound for the whole call: every write — those
for later by-reference outputs included, whatever their own URLs —
targets that single path, overwriting the first output's file. -/
theorem getOutput_reuses_first_filename (st : WPSExecution) (ws : List FileWrite)
    (u f : String)
    (h1 : WPSExecution.getOutput st none = Except.ok ws)
    (h2 : st.processOutputs.findSome? (fun o => o.reference) = some u)
    (h3 : deriveFilename u = some f) :
    ∀ w ∈ ws, w.path = f := by
  unfold WPSExecution.getOutput at h1
  split at h1
  · exact getOutputGo_none_all st.processOutputs ws u f h1 h2 h3
  · exact absurd h1 (by simp)

/-- C10 (witness): the two-output succeeded execution writes both
outputs — the second URL ends in `other.tif` — to the single name
`123OUT.abc` derived from the first URL's query string. -/
theorem getOutput_reuses_first_filename_witness :
    WPSExecution.getOutput twoReferenceState none = Except.ok c10Writes ∧
    (FileWrite.mk "123OUT.abc" "http://h/q/other.tif").path = "123OUT.abc" :=
  ⟨by rfl,
   getOutput_reuses_first_filename twoReferenceState c10Writes
     "http://h/p/RetrieveResultServlet?id=123OUT.abc" "123OUT.abc"
     (by rfl) (by rfl) (by rfl)
     (FileWrite.mk "123OUT.abc" "http://h/q/other.tif") (by decide)⟩

/-- C1 (witness): the characterization applied to the started
execution. -/
theorem isComplete_characterization_witness :
    WPSExecution.isComplete startedExecution = Except.ok false ↔
      (startedExecution.status = some "ProcessAccepted" ∨
        startedExecution.status = some "ProcessStarted" ∨
        startedExecution.status = some "ProcessPaused") :=
  (isComplete_characterization startedExecution).2.1

/-- C4 (witness): the exception report fixture parsed into a fresh
execution. -/
theorem parseExceptionReport_spec_witness :
    ((WPSExecution.parseExceptionReport exceptionReportDoc emptyExecution).status =
      if emptyExecution.status = none then some "Exception" else emptyExecution.status) ∧
    ((WPSExecution.parseExceptionReport exceptionReportDoc emptyExecution).errors =
      emptyExecution.errors ++
        (exceptionReportDoc.findall (nspath "Exception" DEFAULT_OWS_NAMESPACE)).map
          WPSException.ofElem) :=
  parseExceptionReport_spec exceptionReportDoc emptyExecution

/-- C6 (witness): the round trip at the spec's two-input example. -/
theorem buildRequest_roundTrip_witness :
    readBackExecuteRequest (WPSExecution.buildRequest "P"
        ([("A", "x"), ("B", "y")].map (fun p => (p.1, WPSInputValue.str p.2))) none)
      = (some "P", [("A", "x"), ("B", "y")].map (fun p => (some p.1, some p.2))) :=
  buildRequest_roundTrip "P" [("A", "x"), ("B", "y")] none

/-- C7 (witness): with an output hint the echo request carries a
response form. -/
theorem buildRequest_responseForm_witness :
    ((WPSExecution.buildRequest "EchoProcess" [("message", WPSInputValue.str "hello")]
        (some "OUT")).children.any
      (fun c => c.tag == nspath "ResponseForm" WPS_NAMESPACE)) = (some "OUT").isSome :=
  (buildRequest_responseForm "EchoProcess" [("message", WPSInputValue.str "hello")]).1
    (some "OUT")
